import Mathlib

/-!
Verification of the Byfl schema-provisioning script
(src/tools/db/byfltables.py) against its natural-language specification.

The script is embedded shallowly:
* the `TABLES` dictionary is embedded as an association list of
  (table name, DDL string), with each DDL string transcribed byte for byte
  from the Python adjacent-string-literal concatenation;
* the same DDL is additionally transcribed into a structured schema
  (`tablesSchema`) of columns, types and primary keys, so that claims about
  column sets can be stated and decided;
* the control flow of the script (connect, select database, create database
  on `ER_BAD_DB_ERROR`, per-table creation loop, resource teardown) is
  embedded as the pure function `runScript` over an environment `Env`
  describing the outcomes the MySQL server gives to each operation.

Python 2 semantics notes reflected in the model: `exit(1)` raises
`SystemExit`, which at module level terminates the process with status 1
without running the later `cursor.close()` / `cnx.close()` lines; an
exception that no `try` block catches terminates the process abnormally
(non-zero status) without running them either.
-/

namespace Byfltables

/-- The hardcoded database name (`DB_NAME = \x27byfl3\x27` in the source). -/
def DB_NAME : String := "byfl3"

/-- MySQL error code for an unknown database (`errorcode.ER_BAD_DB_ERROR`). -/
def ER_BAD_DB_ERROR : Nat := 1049

/-- MySQL error code for an already-existing table (`errorcode.ER_TABLE_EXISTS_ERROR`). -/
def ER_TABLE_EXISTS_ERROR : Nat := 1050

/-- A `mysql.connector.Error`: a numeric error code plus the message text
that `print(err)` / `str(err)` shows. -/
structure MysqlError where
  errno : Nat
  msg : String
deriving Repr, DecidableEq

/-- DDL of `TABLES[\x27runs\x27]`, the Python adjacent string literals concatenated. -/
def runsDdl : String :=
  "CREATE TABLE `runs` (" ++
  "  `sec` bigint(20) UNSIGNED NOT NULL," ++
  "  `usec` bigint(6) UNSIGNED NOT NULL," ++
  "  `datetime` datetime NOT NULL," ++
  "  `name` varchar(1028) NOT NULL," ++
  "  `run_no` bigint(20) UNSIGNED NOT NULL," ++
  "  `output_id` varchar(64) NOT NULL," ++
  "  `bf_options` varchar(1028) NOT NULL," ++
  "  PRIMARY KEY (`sec`, `usec`)" ++
  ") ENGINE=InnoDB"

/-- DDL of `TABLES[\x27loadstores\x27]`. -/
def loadstoresDdl : String :=
  "CREATE TABLE `loadstores` (" ++
  "  `sec` bigint(20) UNSIGNED NOT NULL," ++
  "  `usec` bigint(6) UNSIGNED NOT NULL," ++
  "  `lsid` int(10) NOT NULL," ++
  "  `tally` bigint(20) UNSIGNED NOT NULL," ++
  "  `memop` bit(1) NOT NULL," ++
  "  `memref` bit(1) NOT NULL," ++
  "  `memagg` bit(1) NOT NULL," ++
  "  `memsize` tinyint(1) NOT NULL," ++
  "  `memtype` tinyint(1) NOT NULL," ++
  "  PRIMARY KEY (`sec`, `usec`, `lsid`)" ++
  ") ENGINE=InnoDB"

/-- DDL of `TABLES[\x27basicblocks\x27]`. -/
def basicblocksDdl : String :=
  "CREATE TABLE `basicblocks` (" ++
  "  `sec` bigint(20) UNSIGNED NOT NULL," ++
  "  `usec` bigint(6) UNSIGNED NOT NULL," ++
  "  `bbid`  bigint(20) unsigned NOT NULL," ++
  "  `num_merged` bigint(20) unsigned NOT NULL," ++
  "  `LD_bytes` bigint(20) unsigned NOT NULL," ++
  "  `ST_bytes` bigint(20) unsigned NOT NULL," ++
  "  `LD_ops` bigint(20) unsigned NOT NULL," ++
  "  `ST_ops` bigint(20) unsigned NOT NULL," ++
  "  `Flops` bigint(20) unsigned NOT NULL," ++
  "  `FP_bits` bigint(20) unsigned NOT NULL," ++
  "  `Int_ops` bigint(20) unsigned NOT NULL," ++
  "  `Int_op_bits` bigint(20) unsigned NOT NULL," ++
  "  PRIMARY KEY (`sec`, `usec`, `bbid`)" ++
  ") ENGINE=InnoDB"

/-- DDL of `TABLES[\x27instmix\x27]`. -/
def instmixDdl : String :=
  "CREATE TABLE `instmix` (" ++
  "  `sec` bigint(20) UNSIGNED NOT NULL," ++
  "  `usec` bigint(6) UNSIGNED NOT NULL," ++
  "  `inst_type` varchar (25) NOT NULL," ++
  "  `tally` bigint(20) UNSIGNED NOT NULL," ++
  "  PRIMARY KEY (`sec`, `usec`, `inst_type`)" ++
  ") ENGINE=InnoDB"

/-- DDL of `TABLES[\x27vectorops\x27]`. -/
def vectoropsDdl : String :=
  "CREATE TABLE `vectorops` (" ++
  "  `sec` bigint(20) UNSIGNED NOT NULL," ++
  "  `usec` bigint(6) UNSIGNED NOT NULL," ++
  "  `vectid` bigint(20) NOT NULL," ++
  "  `Elements` int(11) NOT NULL," ++
  "  `Elt_bits` int(11) NOT NULL," ++
  "  `IsFlop` tinyint(11) NOT NULL," ++
  "  `Tally` bigint(20) NOT NULL," ++
  "  `Function` varchar(128) NOT NULL," ++
  "  PRIMARY KEY (`sec`, `usec`, `vectid`)" ++
  ") ENGINE=InnoDB"

/-- DDL of `TABLES[\x27functions\x27]` (note the two leading spaces of the
first literal, present in the source). -/
def functionsDdl : String :=
  "  CREATE TABLE `functions` (" ++
  "  `sec` bigint(20) UNSIGNED NOT NULL," ++
  "  `usec` bigint(6) UNSIGNED NOT NULL," ++
  "  `stackid` bigint(20) NOT NULL," ++
  "  `LD_bytes` bigint(20) NOT NULL," ++
  "  `ST_bytes` bigint(20) NOT NULL," ++
  "  `LD_ops` bigint(20) NOT NULL," ++
  "  `ST_ops` bigint(20) NOT NULL," ++
  "  `Flops` bigint(20) NOT NULL," ++
  "  `FP_bits` bigint(20) NOT NULL," ++
  "  `Int_ops` bigint(20) NOT NULL," ++
  "  `Int_op_bits` bigint(20) NOT NULL," ++
  "  `Uniq_bytes` bigint(20) NOT NULL," ++
  "  `Cond_brs` bigint(20) NOT NULL," ++
  "  `Invocations` bigint(20) NOT NULL," ++
  "  `Function` varchar(128) NOT NULL," ++
  "  `Parent_func1` varchar(128) NOT NULL," ++
  "  `Parent_func2` varchar(128) NOT NULL," ++
  "  `Parent_func3` varchar(128) NOT NULL," ++
  "  `Parent_func4` varchar(128) NOT NULL," ++
  "  `Parent_func5` varchar(128) NOT NULL," ++
  "  `Parent_func6` varchar(128) NOT NULL," ++
  "  `Parent_func7` varchar(128) NOT NULL," ++
  "  `Parent_func8` varchar(128) NOT NULL," ++
  "  `Parent_func9` varchar(128) NOT NULL," ++
  "  `Parent_func10` varchar(128) NOT NULL," ++
  "  `Parent_func11` varchar(128) NOT NULL," ++
  "  PRIMARY KEY (`sec`, `usec`, `stackid`)" ++
  ") ENGINE=InnoDB"

/-- DDL of `TABLES[\x27callee\x27]` (note: no space between the backquoted
`Byfl` name and `tinyint`, a trailing space inside that literal, and a
lowercase `function` in the PRIMARY KEY clause, all as in the source). -/
def calleeDdl : String :=
  "  CREATE TABLE `callee` (" ++
  "  `sec` bigint(20) UNSIGNED NOT NULL," ++
  "  `usec` bigint(6) UNSIGNED NOT NULL," ++
  "  `Invocations` bigint(20) NOT NULL," ++
  "  `Byfl`tinyint(1) NOT NULL, " ++
  "  `Function` varchar(128) NOT NULL," ++
  "  PRIMARY KEY (`sec`,`usec`,`function`)" ++
  ") ENGINE=InnoDB"

/-- DDL of `TABLES[\x27derived\x27]`. -/
def derivedDdl : String :=
  "  CREATE TABLE `derived` (" ++
  "  `sec` bigint(20) UNSIGNED NOT NULL," ++
  "  `usec` bigint(6) UNSIGNED NOT NULL," ++
  "  `bytes_loaded_per_byte_stored` DOUBLE(20,4) NOT NULL," ++
  "  `ops_per_load_instr` DOUBLE(20,4) NOT NULL," ++
  "  `bits_loaded_stored_per_memory_op` DOUBLE(20,4) NOT NULL," ++
  "  `flops_per_conditional_indirect_branch` DOUBLE(20,4) NOT NULL," ++
  "  `ops_per_conditional_indirect_branch` DOUBLE(20,4) NOT NULL," ++
  "  `vector_ops_per_conditional_indirect_branch` DOUBLE(20,4) NOT NULL," ++
  "  `vector_ops_per_flop` DOUBLE(20,4) NOT NULL," ++
  "  `vector_ops_per_op` DOUBLE(20,4) NOT NULL," ++
  "  `ops_per_instruction` DOUBLE(20,4) NOT NULL," ++
  "  `bytes_per_flop` DOUBLE(20,4) NOT NULL," ++
  "  `bits_per_flop_bit` DOUBLE(20,4) NOT NULL," ++
  "  `bytes_per_op` DOUBLE(20,4) NOT NULL," ++
  "  `bits_per_nonmemory_op_bit` DOUBLE(20,4) NOT NULL," ++
  "  `unique_bytes_per_flop` DOUBLE(20,4) NOT NULL," ++
  "  `unique_bits_per_flop_bit` DOUBLE(20,4) NOT NULL," ++
  "  `unique_bytes_per_op` DOUBLE(20,4) NOT NULL," ++
  "  `unique_bits_per_nonmemory_op_bit` DOUBLE(20,4) NOT NULL," ++
  "  `bytes_per_unique_byte` DOUBLE(20,4) NOT NULL," ++
  "  PRIMARY KEY (`sec`,`usec`)" ++
  ") ENGINE=InnoDB"

/-- The `TABLES` dictionary of the source as an association list, in the
source's insertion order (a Python 2 dict iterates in an unspecified order;
theorems about the table loop are therefore stated for an arbitrary list of
entries wherever the order could matter). -/
def TABLES : List (String × String) :=
  [ ("runs", runsDdl)
  , ("loadstores", loadstoresDdl)
  , ("basicblocks", basicblocksDdl)
  , ("instmix", instmixDdl)
  , ("vectorops", vectoropsDdl)
  , ("functions", functionsDdl)
  , ("callee", calleeDdl)
  , ("derived", derivedDdl) ]

/-- A MySQL column type as it appears in the DDL strings.  The numeric
argument of `bigint`, `int`, `tinyint` and `bit` is the display width or bit
count written in the DDL; `unsigned` records the presence of the
UNSIGNED/unsigned keyword on `bigint` columns (the only columns the source
marks unsigned).  `decimal` is MySQL's fixed-point type; the source never
uses it, but it is included so that claims about fixed-point columns can be
stated and refuted. -/
inductive SqlType where
  | bigint (width : Nat) (unsigned : Bool)
  | int (width : Nat)
  | tinyint (width : Nat)
  | bit (width : Nat)
  | datetime
  | varchar (len : Nat)
  | double (m d : Nat)
  | decimal (m d : Nat)
deriving Repr, DecidableEq

/-- Storage width in bits that MySQL assigns to an integer column type
(bigint is the 64-bit integer type, int 32, tinyint 8); `none` for
non-integer types. -/
def SqlType.intBits : SqlType → Option Nat
  | .bigint _ _ => some 64
  | .int _ => some 32
  | .tinyint _ => some 8
  | _ => none

/-- Whether the type is an unsigned integer type. -/
def SqlType.isUnsigned : SqlType → Bool
  | .bigint _ u => u
  | _ => false

/-- Whether the type is MySQL's fixed-point decimal type. -/
def SqlType.isDecimal : SqlType → Bool
  | .decimal _ _ => true
  | _ => false

/-- One column declaration: name, type, and whether it carries NOT NULL. -/
structure Column where
  name : String
  type : SqlType
  notNull : Bool
deriving Repr, DecidableEq

/-- One table definition: name, columns in declaration order, the column
list of the PRIMARY KEY clause (identifiers exactly as spelled there), and
the storage engine named after the closing parenthesis. -/
structure TableDef where
  name : String
  columns : List Column
  primaryKey : List String
  engine : String
deriving Repr, DecidableEq

/-- Shorthand for a NOT NULL column, the only kind the source declares. -/
def col (n : String) (t : SqlType) : Column := ⟨n, t, true⟩

/-- Shorthand for a signed `bigint(20) NOT NULL` column. -/
def i64col (n : String) : Column := col n (.bigint 20 false)

/-- Shorthand for an unsigned `bigint(20) NOT NULL` column. -/
def u64col (n : String) : Column := col n (.bigint 20 true)

/-- Shorthand for a `varchar(128) NOT NULL` column. -/
def str128col (n : String) : Column := col n (.varchar 128)

/-- Shorthand for a `DOUBLE(20,4) NOT NULL` column of the derived table. -/
def ratioCol (n : String) : Column := col n (.double 20 4)

/-- Structured transcription of `TABLES[\x27runs\x27]`. -/
def runsTable : TableDef :=
  { name := "runs"
    columns :=
      [ u64col "sec"
      , col "usec" (.bigint 6 true)
      , col "datetime" .datetime
      , col "name" (.varchar 1028)
      , u64col "run_no"
      , col "output_id" (.varchar 64)
      , col "bf_options" (.varchar 1028) ]
    primaryKey := ["sec", "usec"]
    engine := "InnoDB" }

/-- Structured transcription of `TABLES[\x27loadstores\x27]`. -/
def loadstoresTable : TableDef :=
  { name := "loadstores"
    columns :=
      [ u64col "sec"
      , col "usec" (.bigint 6 true)
      , col "lsid" (.int 10)
      , u64col "tally"
      , col "memop" (.bit 1)
      , col "memref" (.bit 1)
      , col "memagg" (.bit 1)
      , col "memsize" (.tinyint 1)
      , col "memtype" (.tinyint 1) ]
    primaryKey := ["sec", "usec", "lsid"]
    engine := "InnoDB" }

/-- Structured transcription of `TABLES[\x27basicblocks\x27]`. -/
def basicblocksTable : TableDef :=
  { name := "basicblocks"
    columns :=
      [ u64col "sec"
      , col "usec" (.bigint 6 true)
      , u64col "bbid"
      , u64col "num_merged"
      , u64col "LD_bytes"
      , u64col "ST_bytes"
      , u64col "LD_ops"
      , u64col "ST_ops"
      , u64col "Flops"
      , u64col "FP_bits"
      , u64col "Int_ops"
      , u64col "Int_op_bits" ]
    primaryKey := ["sec", "usec", "bbid"]
    engine := "InnoDB" }

/-- Structured transcription of `TABLES[\x27instmix\x27]`. -/
def instmixTable : TableDef :=
  { name := "instmix"
    columns :=
      [ u64col "sec"
      , col "usec" (.bigint 6 true)
      , col "inst_type" (.varchar 25)
      , u64col "tally" ]
    primaryKey := ["sec", "usec", "inst_type"]
    engine := "InnoDB" }

/-- Structured transcription of `TABLES[\x27vectorops\x27]`. -/
def vectoropsTable : TableDef :=
  { name := "vectorops"
    columns :=
      [ u64col "sec"
      , col "usec" (.bigint 6 true)
      , i64col "vectid"
      , col "Elements" (.int 11)
      , col "Elt_bits" (.int 11)
      , col "IsFlop" (.tinyint 11)
      , i64col "Tally"
      , str128col "Function" ]
    primaryKey := ["sec", "usec", "vectid"]
    engine := "InnoDB" }

/-- Structured transcription of `TABLES[\x27functions\x27]`. -/
def functionsTable : TableDef :=
  { name := "functions"
    columns :=
      [ u64col "sec"
      , col "usec" (.bigint 6 true)
      , i64col "stackid"
      , i64col "LD_bytes"
      , i64col "ST_bytes"
      , i64col "LD_ops"
      , i64col "ST_ops"
      , i64col "Flops"
      , i64col "FP_bits"
      , i64col "Int_ops"
      , i64col "Int_op_bits"
      , i64col "Uniq_bytes"
      , i64col "Cond_brs"
      , i64col "Invocations"
      , str128col "Function"
      , str128col "Parent_func1"
      , str128col "Parent_func2"
      , str128col "Parent_func3"
      , str128col "Parent_func4"
      , str128col "Parent_func5"
      , str128col "Parent_func6"
      , str128col "Parent_func7"
      , str128col "Parent_func8"
      , str128col "Parent_func9"
      , str128col "Parent_func10"
      , str128col "Parent_func11" ]
    primaryKey := ["sec", "usec", "stackid"]
    engine := "InnoDB" }

/-- Structured transcription of `TABLES[\x27callee\x27]`.  The PRIMARY KEY
clause of the source spells the third key column `function`, in lowercase,
while the declared column is `Function`; the transcription keeps the
lowercase spelling (MySQL column identifiers are case-insensitive, so the
DDL is valid and the key column is the `Function` column). -/
def calleeTable : TableDef :=
  { name := "callee"
    columns :=
      [ u64col "sec"
      , col "usec" (.bigint 6 true)
      , i64col "Invocations"
      , col "Byfl" (.tinyint 1)
      , str128col "Function" ]
    primaryKey := ["sec", "usec", "function"]
    engine := "InnoDB" }

/-- Structured transcription of `TABLES[\x27derived\x27]`. -/
def derivedTable : TableDef :=
  { name := "derived"
    columns :=
      [ u64col "sec"
      , col "usec" (.bigint 6 true)
      , ratioCol "bytes_loaded_per_byte_stored"
      , ratioCol "ops_per_load_instr"
      , ratioCol "bits_loaded_stored_per_memory_op"
      , ratioCol "flops_per_conditional_indirect_branch"
      , ratioCol "ops_per_conditional_indirect_branch"
      , ratioCol "vector_ops_per_conditional_indirect_branch"
      , ratioCol "vector_ops_per_flop"
      , ratioCol "vector_ops_per_op"
      , ratioCol "ops_per_instruction"
      , ratioCol "bytes_per_flop"
      , ratioCol "bits_per_flop_bit"
      , ratioCol "bytes_per_op"
      , ratioCol "bits_per_nonmemory_op_bit"
      , ratioCol "unique_bytes_per_flop"
      , ratioCol "unique_bits_per_flop_bit"
      , ratioCol "unique_bytes_per_op"
      , ratioCol "unique_bits_per_nonmemory_op_bit"
      , ratioCol "bytes_per_unique_byte" ]
    primaryKey := ["sec", "usec"]
    engine := "InnoDB" }

/-- The structured schema, in the same order as `TABLES`. -/
def tablesSchema : List TableDef :=
  [ runsTable, loadstoresTable, basicblocksTable, instmixTable
  , vectoropsTable, functionsTable, calleeTable, derivedTable ]

/-- Whether `pat` is a prefix of `l`, on character lists. -/
def isPrefixL : List Char → List Char → Bool
  | [], _ => true
  | _ :: _, [] => false
  | a :: as, b :: bs => a = b && isPrefixL as bs

/-- Number of positions of `l` at which `pat` occurs, on character lists. -/
def countSub : List Char → List Char → Nat
  | [], _ => 0
  | a :: rest, pat =>
      (if isPrefixL pat (a :: rest) then 1 else 0) + countSub rest pat

/-- Number of occurrences of the substring `pat` in `s`. -/
def countSubstr (s pat : String) : Nat := countSub s.data pat.data

/-- Whether `s` ends with the string `pat`. -/
def strEndsWith (s pat : String) : Bool :=
  isPrefixL pat.data.reverse s.data.reverse

/-- ASCII lowercase of one character (used to model MySQL's
case-insensitive comparison of column identifiers). -/
def lowerChar (c : Char) : Char :=
  if 65 ≤ c.toNat && c.toNat ≤ 90 then Char.ofNat (c.toNat + 32) else c

/-- ASCII lowercase of a string. -/
def lowerStr (s : String) : String := ⟨s.data.map lowerChar⟩

/-- The database-creation statement executed by `create_database`:
`"CREATE DATABASE \x7b\x7d DEFAULT CHARACTER SET \x27utf8\x27".format(DB_NAME)`. -/
def createDatabaseStmt : String :=
  "CREATE DATABASE " ++ DB_NAME ++ " DEFAULT CHARACTER SET \x27utf8\x27"

/-- The outcomes the MySQL server gives to each operation the script
performs: the initial `mysql.connector.connect` call, the first
`cnx.database = DB_NAME` assignment, the same assignment retried after
database creation, and every `cursor.execute(stmt)` call (used both for the
CREATE DATABASE statement and for the table DDL statements, keyed by the
statement text).  `none` means the operation succeeds; `some err` means it
raises `mysql.connector.Error err`. -/
structure Env where
  connect : Option MysqlError
  firstSelect : Option MysqlError
  secondSelect : Option MysqlError
  exec : String → Option MysqlError

/-- How the process ends: `exited c` for termination through `exit(c)` or
normal fall-through of the script (`c = 0`), `uncaught e` for abnormal
termination by an exception no `try` block catches. -/
inductive Termination where
  | exited (code : Nat)
  | uncaught (e : MysqlError)
deriving Repr, DecidableEq

/-- Observable outcome of one run of the script: the printed lines (one
entry per printed line), the statements passed to `cursor.execute` in
order, how the process ended, and whether the `cursor.close()` and
`cnx.close()` lines were reached. -/
structure RunResult where
  output : List String
  executed : List String
  selectAttempts : Nat
  term : Termination
  cursorClosed : Bool
  cnxClosed : Bool
deriving Repr, DecidableEq

/-- The `create_database(cursor)` function of the source: execute the
CREATE DATABASE statement; on `mysql.connector.Error`, print the failure
message and `exit(1)`.  Returns `.ok` on success and `.error` with the
printed line when it exits the process. -/
def create_database (env : Env) : Except (List String) Unit :=
  match env.exec createDatabaseStmt with
  | none => .ok ()
  | some err => .error ["Failed creating database: " ++ err.msg]

/-- The status line the table loop prints for one entry: the prefix
`"Creating table \x7b\x7d: ".format(name)` printed with `end=\x27\x27`,
followed on the same line by `OK`, `already exists.`, or the error message,
according to the outcome of `cursor.execute(ddl)`. -/
def tableLine (env : Env) (name ddl : String) : String :=
  "Creating table " ++ name ++ ": " ++
    (match env.exec ddl with
     | none => "OK"
     | some err =>
         if err.errno = ER_TABLE_EXISTS_ERROR then "already exists."
         else err.msg)

/-- The `for name, ddl in TABLES.iteritems()` loop: every entry is
attempted regardless of earlier outcomes, and each contributes exactly one
status line. -/
def tableLoop (env : Env) (ts : List (String × String)) : List String :=
  ts.map (fun p => tableLine env p.1 p.2)

/-- The whole script, from `mysql.connector.connect` to `cnx.close()`,
over an environment `env` and a list `ts` of `(name, ddl)` entries in the
order the dict iteration yields them.

Path by path, following the source: a failed connect is an uncaught
exception (cursor never opened).  If the first `cnx.database = DB_NAME`
succeeds, the table loop runs, then `cursor.close()` and `cnx.close()`, and
the script falls off the end (exit status 0).  If it fails with
`ER_BAD_DB_ERROR`, `create_database` runs: on its failure the process exits
with status 1 from inside `create_database`; on its success the assignment
is retried outside any `try`, so a second failure is an uncaught exception,
and success continues to the table loop.  Any other first-selection error
is printed and the process exits with status 1.  Only the fall-through path
reaches the two `close()` calls. -/
def runScript (env : Env) (ts : List (String × String)) : RunResult :=
  match env.connect with
  | some e => ⟨[], [], 0, .uncaught e, false, false⟩
  | none =>
    match env.firstSelect with
    | none =>
        ⟨tableLoop env ts, ts.map Prod.snd, 1, .exited 0, true, true⟩
    | some err =>
        if err.errno = ER_BAD_DB_ERROR then
          match create_database env with
          | .error out => ⟨out, [createDatabaseStmt], 1, .exited 1, false, false⟩
          | .ok _ =>
            match env.secondSelect with
            | some e2 => ⟨[], [createDatabaseStmt], 2, .uncaught e2, false, false⟩
            | none =>
                ⟨tableLoop env ts, createDatabaseStmt :: ts.map Prod.snd, 2,
                  .exited 0, true, true⟩
        else
          ⟨[err.msg], [], 1, .exited 1, false, false⟩

set_option maxRecDepth 20000

/-- Claim C1, counterexample.  The claim states that on every exit path,
including the fatal halts, the opened cursor and connection are released
before the process terminates.  Concrete input refuting it: the connection
succeeds (so cursor and connection are opened) and database selection fails
with an error other than unknown-database (errno 1045, access denied); the
script prints the error and calls `exit(1)` without ever reaching the
`cursor.close()` and `cnx.close()` lines. -/
theorem fatal_halt_skips_close :
    (runScript ⟨none, some ⟨1045, "Access denied for user"⟩, none,
        fun _ => none⟩ TABLES).cursorClosed = false ∧
    (runScript ⟨none, some ⟨1045, "Access denied for user"⟩, none,
        fun _ => none⟩ TABLES).cnxClosed = false ∧
    (runScript ⟨none, some ⟨1045, "Access denied for user"⟩, none,
        fun _ => none⟩ TABLES).term = .exited 1 := by
  refine ⟨rfl, rfl, rfl⟩

/-- Claim C1, amended.  The close calls are reached exactly on the runs
that complete the table loop and fall off the end of the script with exit
status 0; every fatal halt (`exit(1)`) and every uncaught error terminates
the process without the cursor or the connection being explicitly
released. -/
theorem close_called_iff_exit_zero (env : Env) (ts : List (String × String)) :
    ((runScript env ts).cursorClosed = true ∧ (runScript env ts).cnxClosed = true)
      ↔ (runScript env ts).term = .exited 0 := by
  unfold runScript
  cases env.connect with
  | some e => simp
  | none =>
    cases env.firstSelect with
    | none => simp
    | some err =>
      dsimp only
      by_cases hb : err.errno = ER_BAD_DB_ERROR
      · rw [if_pos hb]
        unfold create_database
        cases env.exec createDatabaseStmt with
        | none =>
          dsimp only
          cases env.secondSelect with
          | none => simp
          | some e2 => simp
        | some e => simp
      · rw [if_neg hb]
        simp

/-- Claim C2, counterexample.  The claim says the source tables dict
contains nine table definitions; it contains eight. -/
theorem tables_count_not_nine : ¬ TABLES.length = 9 := by decide

/-- Claim C2, amended.  The tables dict contains eight table definitions,
and its key set is exactly the set enumerated in spec section 6: runs,
loadstores, basicblocks, instmix, vectorops, functions, callee, derived. -/
theorem tables_keys_eight :
    TABLES.length = 8 ∧
    TABLES.map Prod.fst =
      ["runs", "loadstores", "basicblocks", "instmix", "vectorops",
       "functions", "callee", "derived"] := by
  refine ⟨rfl, by decide⟩

/-- Claim C3.  With the connection open and the first database selection
failing with error `err`: if `err` is classified as unknown database
(`ER_BAD_DB_ERROR`), the create-database statement — which carries the
fixed character-set option — is the first statement executed, and on its
success the selection is retried (two selection attempts); if the
create-database statement itself fails, the process halts with exit status
1 having executed nothing beyond that statement; if `err` is of any other
kind, the process halts with exit status 1 immediately, printing the error
and executing no statement at all. -/
theorem selection_failure_handling (env : Env) (ts : List (String × String))
    (err : MysqlError) (hc : env.connect = none)
    (hf : env.firstSelect = some err) :
    (err.errno = ER_BAD_DB_ERROR →
        ((runScript env ts).executed.head? = some createDatabaseStmt ∧
         strEndsWith createDatabaseStmt
           "DEFAULT CHARACTER SET \x27utf8\x27" = true) ∧
        (env.exec createDatabaseStmt = none →
            (runScript env ts).selectAttempts = 2) ∧
        (∀ e, env.exec createDatabaseStmt = some e →
            (runScript env ts).term = .exited 1 ∧
            (runScript env ts).executed = [createDatabaseStmt] ∧
            (runScript env ts).output = ["Failed creating database: " ++ e.msg])) ∧
    (err.errno ≠ ER_BAD_DB_ERROR →
        (runScript env ts).term = .exited 1 ∧
        (runScript env ts).executed = [] ∧
        (runScript env ts).output = [err.msg]) := by
  unfold runScript
  rw [hc, hf]
  dsimp only
  constructor
  · intro hb
    rw [if_pos hb]
    unfold create_database
    refine ⟨?_, ?_, ?_⟩
    · cases hx : env.exec createDatabaseStmt with
      | none =>
        dsimp only
        cases env.secondSelect with
        | none => exact ⟨rfl, by decide⟩
        | some e2 => exact ⟨rfl, by decide⟩
      | some e => exact ⟨rfl, by decide⟩
    · intro hx
      rw [hx]
      dsimp only
      cases env.secondSelect with
      | none => rfl
      | some e2 => rfl
    · intro e hx
      rw [hx]
      exact ⟨rfl, rfl, rfl⟩
  · intro hb
    rw [if_neg hb]
    exact ⟨rfl, rfl, rfl⟩

/-- Claim C3, witness: the unknown-database case at errno 1049 with a
create-database statement that succeeds, on the source `TABLES`. -/
theorem selection_failure_handling_witness :
    ((⟨none, some ⟨1049, "Unknown database"⟩, none, fun _ => none⟩ : Env).connect
        = none) ∧
    (((⟨1049, "Unknown database"⟩ : MysqlError).errno = ER_BAD_DB_ERROR →
        ((runScript ⟨none, some ⟨1049, "Unknown database"⟩, none, fun _ => none⟩
            TABLES).executed.head? = some createDatabaseStmt ∧
         strEndsWith createDatabaseStmt
           "DEFAULT CHARACTER SET \x27utf8\x27" = true) ∧
        ((⟨none, some ⟨1049, "Unknown database"⟩, none, fun _ => none⟩ : Env).exec
            createDatabaseStmt = none →
            (runScript ⟨none, some ⟨1049, "Unknown database"⟩, none, fun _ => none⟩
              TABLES).selectAttempts = 2) ∧
        (∀ e, (⟨none, some ⟨1049, "Unknown database"⟩, none, fun _ => none⟩ : Env).exec
            createDatabaseStmt = some e →
            (runScript ⟨none, some ⟨1049, "Unknown database"⟩, none, fun _ => none⟩
              TABLES).term = .exited 1 ∧
            (runScript ⟨none, some ⟨1049, "Unknown database"⟩, none, fun _ => none⟩
              TABLES).executed = [createDatabaseStmt] ∧
            (runScript ⟨none, some ⟨1049, "Unknown database"⟩, none, fun _ => none⟩
              TABLES).output = ["Failed creating database: " ++ e.msg])) ∧
      ((⟨1049, "Unknown database"⟩ : MysqlError).errno ≠ ER_BAD_DB_ERROR →
        (runScript ⟨none, some ⟨1049, "Unknown database"⟩, none, fun _ => none⟩
            TABLES).term = .exited 1 ∧
        (runScript ⟨none, some ⟨1049, "Unknown database"⟩, none, fun _ => none⟩
            TABLES).executed = [] ∧
        (runScript ⟨none, some ⟨1049, "Unknown database"⟩, none, fun _ => none⟩
            TABLES).output = ["Unknown database"])) :=
  ⟨rfl, selection_failure_handling
      ⟨none, some ⟨1049, "Unknown database"⟩, none, fun _ => none⟩
      TABLES ⟨1049, "Unknown database"⟩ rfl rfl⟩

/-- Claim C4.  Once database selection has succeeded, every entry of the
table list is attempted (its DDL is passed to `cursor.execute`), each entry
contributes exactly one status line, and that line records exactly one of
three outcomes: `OK` on success, `already exists.` on a failure with
`ER_TABLE_EXISTS_ERROR`, and the engine message on any other failure —
so no outcome of one entry prevents the remaining entries from being
attempted. -/
theorem table_loop_outcomes (env : Env) (ts : List (String × String))
    (hc : env.connect = none) (hf : env.firstSelect = none) :
    (runScript env ts).executed = ts.map Prod.snd ∧
    (runScript env ts).output = ts.map (fun p => tableLine env p.1 p.2) ∧
    ∀ p ∈ ts,
      (env.exec p.2 = none →
          tableLine env p.1 p.2 = "Creating table " ++ p.1 ++ ": " ++ "OK") ∧
      (∀ e, env.exec p.2 = some e → e.errno = ER_TABLE_EXISTS_ERROR →
          tableLine env p.1 p.2 =
            "Creating table " ++ p.1 ++ ": " ++ "already exists.") ∧
      (∀ e, env.exec p.2 = some e → e.errno ≠ ER_TABLE_EXISTS_ERROR →
          tableLine env p.1 p.2 = "Creating table " ++ p.1 ++ ": " ++ e.msg) := by
  unfold runScript
  rw [hc, hf]
  refine ⟨rfl, rfl, ?_⟩
  intro p hp
  refine ⟨?_, ?_, ?_⟩
  · intro hx
    unfold tableLine
    rw [hx]
  · intro e hx he
    unfold tableLine
    rw [hx]
    dsimp only
    rw [if_pos he]
  · intro e hx he
    unfold tableLine
    rw [hx]
    dsimp only
    rw [if_neg he]

/-- Claim C4, witness: a run over the source `TABLES` in which the
`instmix` DDL fails with a syntax error and every other DDL succeeds. -/
theorem table_loop_outcomes_witness :
    (runScript ⟨none, none, none,
        fun s => if s = instmixDdl
          then some ⟨1064, "You have an error in your SQL syntax"⟩
          else none⟩ TABLES).executed = TABLES.map Prod.snd ∧
    (runScript ⟨none, none, none,
        fun s => if s = instmixDdl
          then some ⟨1064, "You have an error in your SQL syntax"⟩
          else none⟩ TABLES).output =
      TABLES.map (fun p =>
        tableLine ⟨none, none, none,
          fun s => if s = instmixDdl
            then some ⟨1064, "You have an error in your SQL syntax"⟩
            else none⟩ p.1 p.2) ∧
    ∀ p ∈ TABLES,
      ((⟨none, none, none,
          fun s => if s = instmixDdl
            then some ⟨1064, "You have an error in your SQL syntax"⟩
            else none⟩ : Env).exec p.2 = none →
          tableLine ⟨none, none, none,
            fun s => if s = instmixDdl
              then some ⟨1064, "You have an error in your SQL syntax"⟩
              else none⟩ p.1 p.2 = "Creating table " ++ p.1 ++ ": " ++ "OK") ∧
      (∀ e, (⟨none, none, none,
          fun s => if s = instmixDdl
            then some ⟨1064, "You have an error in your SQL syntax"⟩
            else none⟩ : Env).exec p.2 = some e →
          e.errno = ER_TABLE_EXISTS_ERROR →
          tableLine ⟨none, none, none,
            fun s => if s = instmixDdl
              then some ⟨1064, "You have an error in your SQL syntax"⟩
              else none⟩ p.1 p.2 =
            "Creating table " ++ p.1 ++ ": " ++ "already exists.") ∧
      (∀ e, (⟨none, none, none,
          fun s => if s = instmixDdl
            then some ⟨1064, "You have an error in your SQL syntax"⟩
            else none⟩ : Env).exec p.2 = some e →
          e.errno ≠ ER_TABLE_EXISTS_ERROR →
          tableLine ⟨none, none, none,
            fun s => if s = instmixDdl
              then some ⟨1064, "You have an error in your SQL syntax"⟩
              else none⟩ p.1 p.2 = "Creating table " ++ p.1 ++ ": " ++ e.msg) :=
  table_loop_outcomes
    ⟨none, none, none,
      fun s => if s = instmixDdl
        then some ⟨1064, "You have an error in your SQL syntax"⟩
        else none⟩ TABLES rfl rfl

/-- Claim C5, counterexample.  The claim says each of the 18 ratio columns
of the derived table is stored as a fixed-point decimal type (20 digits, 4
fractional).  Concrete input refuting it: the `bytes_loaded_per_byte_stored`
column is declared `DOUBLE(20,4)`, MySQL floating-point, and no column of
the derived table has a decimal type; the DDL text contains 18 occurrences
of `DOUBLE(20,4)` and none of `DECIMAL` in either case. -/
theorem derived_ratio_not_decimal :
    ((derivedTable.columns.filter
        (fun c => c.name == "bytes_loaded_per_byte_stored")).map Column.type
      = [SqlType.double 20 4]) ∧
    (derivedTable.columns.filter (fun c => c.type.isDecimal)).length = 0 ∧
    countSubstr derivedDdl "DOUBLE(20,4)" = 18 ∧
    countSubstr derivedDdl "DECIMAL" = 0 ∧
    countSubstr derivedDdl "decimal" = 0 ∧
    SqlType.double 20 4 ≠ SqlType.decimal 20 4 := by
  refine ⟨by decide, by decide, by decide, by decide, by decide, by decide⟩

/-- Claim C5, amended.  The derived table declares, besides the
`(sec, usec)` key, exactly 18 ratio columns, each of MySQL type
`DOUBLE(20,4)` (double-precision floating point with display width 20 and
4 decimals), including a column named `bytes_loaded_per_byte_stored`. -/
theorem derived_ratio_columns_double :
    derivedTable.primaryKey = ["sec", "usec"] ∧
    (derivedTable.columns.take 2).map Column.name = ["sec", "usec"] ∧
    (derivedTable.columns.drop 2).length = 18 ∧
    ((derivedTable.columns.drop 2).all
      (fun c => c.type == SqlType.double 20 4)) = true ∧
    "bytes_loaded_per_byte_stored" ∈ (derivedTable.columns.drop 2).map Column.name ∧
    countSubstr derivedDdl "DOUBLE(20,4) NOT NULL" = 18 := by
  refine ⟨rfl, by decide, by decide, by decide, by decide, by decide⟩

/-- Claim C6.  Every table declares a composite primary key whose leading
components are `sec` and `usec`; `sec` is declared on every table as an
unsigned 64-bit integer column (`bigint(20) UNSIGNED`) and `usec` as an
unsigned integer column; every table other than `runs` and `derived` adds
exactly one further key column, which (up to MySQL identifier case, used by
the `callee` table where the key clause spells the `Function` column
`function`) is one of lsid, bbid, inst_type, vectid, stackid, Function. -/
theorem composite_primary_keys :
    tablesSchema.all (fun t =>
      (t.primaryKey.take 2 == ["sec", "usec"]) &&
      ((t.columns.filter (fun c => c.name == "sec")).length == 1) &&
      ((t.columns.filter (fun c => c.name == "sec")).all
        (fun c => c.type.intBits == some 64 && c.type.isUnsigned)) &&
      ((t.columns.filter (fun c => c.name == "usec")).length == 1) &&
      ((t.columns.filter (fun c => c.name == "usec")).all
        (fun c => c.type.intBits.isSome && c.type.isUnsigned)) &&
      (if t.name == "runs" || t.name == "derived" then
        t.primaryKey == ["sec", "usec"]
      else
        (t.primaryKey.length == 3) &&
        ((t.primaryKey.drop 2).all (fun k =>
          ["lsid", "bbid", "inst_type", "vectid", "stackid",
           "function"].contains (lowerStr k))))) = true := by decide

/-- Claim C7.  When the connection succeeds and database selection succeeds
(directly, or after a successful database creation following an
unknown-database error), the run prints exactly one status line per entry
of `TABLES`, reaches both close calls, and the script falls off the end,
exiting with status 0 — whatever outcomes the individual table DDL
executions have. -/
theorem exit_zero_despite_table_failures (env : Env)
    (hc : env.connect = none)
    (h : env.firstSelect = none ∨
         ((∃ m, env.firstSelect = some ⟨ER_BAD_DB_ERROR, m⟩) ∧
          env.exec createDatabaseStmt = none ∧ env.secondSelect = none)) :
    (runScript env TABLES).term = .exited 0 ∧
    (runScript env TABLES).output.length = TABLES.length ∧
    (runScript env TABLES).cursorClosed = true ∧
    (runScript env TABLES).cnxClosed = true := by
  unfold runScript
  rw [hc]
  rcases h with hf | ⟨⟨m, hf⟩, hx, hs⟩
  · rw [hf]
    dsimp only
    refine ⟨rfl, ?_, rfl, rfl⟩
    unfold tableLoop
    rw [List.length_map]
  · rw [hf]
    dsimp only
    rw [if_pos rfl]
    unfold create_database
    rw [hx]
    dsimp only
    rw [hs]
    dsimp only
    refine ⟨rfl, ?_, rfl, rfl⟩
    unfold tableLoop
    rw [List.length_map]

/-- Claim C7, witness: a run in which every one of the eight table DDL
executions fails with a syntax error; the run still prints eight status
lines and exits with status 0. -/
theorem exit_zero_despite_table_failures_witness :
    (runScript ⟨none, none, none,
        fun _ => some ⟨1064, "You have an error in your SQL syntax"⟩⟩
      TABLES).term = .exited 0 ∧
    (runScript ⟨none, none, none,
        fun _ => some ⟨1064, "You have an error in your SQL syntax"⟩⟩
      TABLES).output.length = TABLES.length ∧
    (runScript ⟨none, none, none,
        fun _ => some ⟨1064, "You have an error in your SQL syntax"⟩⟩
      TABLES).cursorClosed = true ∧
    (runScript ⟨none, none, none,
        fun _ => some ⟨1064, "You have an error in your SQL syntax"⟩⟩
      TABLES).cnxClosed = true :=
  exit_zero_despite_table_failures
    ⟨none, none, none,
      fun _ => some ⟨1064, "You have an error in your SQL syntax"⟩⟩
    rfl (Or.inl rfl)

/-- Claim C8.  The functions table declares exactly 11 parent-function
columns, named `Parent_func1` through `Parent_func11`, each `varchar(128)`,
in addition to the `Function` column, itself `varchar(128)`. -/
theorem functions_parent_columns :
    (functionsTable.columns.filter
        (fun c => isPrefixL "Parent_func".data c.name.data)).map
        (fun c => (c.name, c.type)) =
      [("Parent_func1", SqlType.varchar 128), ("Parent_func2", SqlType.varchar 128),
       ("Parent_func3", SqlType.varchar 128), ("Parent_func4", SqlType.varchar 128),
       ("Parent_func5", SqlType.varchar 128), ("Parent_func6", SqlType.varchar 128),
       ("Parent_func7", SqlType.varchar 128), ("Parent_func8", SqlType.varchar 128),
       ("Parent_func9", SqlType.varchar 128), ("Parent_func10", SqlType.varchar 128),
       ("Parent_func11", SqlType.varchar 128)] ∧
    ("Function", SqlType.varchar 128) ∈
      functionsTable.columns.map (fun c => (c.name, c.type)) := by
  refine ⟨by decide, by decide⟩

/-- Claim C9.  Every column of every table definition carries NOT NULL: the
structured schema has `notNull` on every column, and, cross-checking
against the literal DDL text, each DDL string contains exactly as many
occurrences of the substring NOT NULL as its table has columns. -/
theorem all_columns_not_null :
    (tablesSchema.all (fun t => t.columns.all (fun c => c.notNull))) = true ∧
    TABLES.length = tablesSchema.length ∧
    ((TABLES.zip tablesSchema).all (fun pt =>
      (pt.1.1 == pt.2.name) &&
      (countSubstr pt.1.2 "NOT NULL" == pt.2.columns.length))) = true := by
  refine ⟨by decide, rfl, by decide⟩

/-- Claim C10.  Every DDL string of the tables dict ends with the text
ENGINE=InnoDB. -/
theorem all_ddl_innodb :
    TABLES.all (fun p => strEndsWith p.2 "ENGINE=InnoDB") = true := by decide

end Byfltables
